import Mathlib

/-!
Shallow embedding of the jelloscript 2D engine core (Config.js, Struct.js,
Collider.js, BoxCollider.js, GameObject.js, Component.js, Utils.js, run.js).

JavaScript numbers are modelled as exact rationals.  To keep every definition
kernel-computable we represent a number as an unnormalized integer fraction
(`Q`); the `Q.toRat` homomorphism lemmas below show that the operations are
ordinary rational arithmetic whenever denominators are nonzero (which every
state reachable in the claims maintains — all inputs have denominator 1 or 5
and the operations only multiply denominators).  `Vector2.moveTowards`, which
takes a square root, is modelled separately over the reals.
-/

namespace Jello

/-- A JS number modelled as the exact fraction num/den (not normalized). -/
structure Q where
  num : ℤ
  den : ℤ
deriving DecidableEq, Repr

/-- Embeds an integer as a fraction with denominator one. -/
def Q.ofInt (n : ℤ) : Q := ⟨n, 1⟩

/-- Fraction addition: a/b + c/d = (a*d + c*b)/(b*d). -/
def Q.add (x y : Q) : Q := ⟨x.num * y.den + y.num * x.den, x.den * y.den⟩

/-- Fraction negation. -/
def Q.neg (x : Q) : Q := ⟨-x.num, x.den⟩

/-- Fraction subtraction. -/
def Q.sub (x y : Q) : Q := x.add y.neg

/-- Fraction multiplication. -/
def Q.mul (x y : Q) : Q := ⟨x.num * y.num, x.den * y.den⟩

/-- Fraction division: (a/b) / (c/d) = (a*d)/(b*c). -/
def Q.div (x y : Q) : Q := ⟨x.num * y.den, x.den * y.num⟩

/-- Value equality of two fractions (JS `==` on numbers): a/b = c/d iff a*d = c*b. -/
def Q.beq (x y : Q) : Bool := decide (x.num * y.den = y.num * x.den)

/-- x ≤ y as real numbers; the cross multiplication by the squared denominators
keeps the direction of the inequality whatever the signs of the denominators. -/
def Q.ble (x y : Q) : Bool :=
  decide (x.num * x.den * (y.den * y.den) ≤ y.num * y.den * (x.den * x.den))

/-- x ≥ y (JS `>=`). -/
def Q.bge (x y : Q) : Bool := Q.ble y x

/-- x < y (JS `<`), i.e. not y ≤ x (valid for nonzero denominators). -/
def Q.blt (x y : Q) : Bool := !(Q.ble y x)

/-- x > y (JS `>`). -/
def Q.bgt (x y : Q) : Bool := Q.blt y x

/-- The rational number a fraction denotes. -/
def Q.toRat (x : Q) : ℚ := (x.num : ℚ) / (x.den : ℚ)

/-- Struct.js `Vector2` (value part). -/
structure Vector2 where
  x : Q
  y : Q
deriving DecidableEq, Repr

/-- `Vector2.add`. -/
def Vector2.add (a b : Vector2) : Vector2 := ⟨a.x.add b.x, a.y.add b.y⟩

/-- `Vector2.negate`. -/
def Vector2.negate (a : Vector2) : Vector2 := ⟨a.x.neg, a.y.neg⟩

/-- `Vector2.substract`: `this.add(other.negate())`. -/
def Vector2.substract (a b : Vector2) : Vector2 := a.add b.negate

/-- `Vector2.multiply` by a scalar. -/
def Vector2.multiply (a : Vector2) (n : Q) : Vector2 := ⟨a.x.mul n, a.y.mul n⟩

/-- `Vector2.divide` by a scalar. -/
def Vector2.divide (a : Vector2) (n : Q) : Vector2 := ⟨a.x.div n, a.y.div n⟩

/-- `Vector2.equals`: componentwise JS number equality. -/
def Vector2.equals (a b : Vector2) : Bool := a.x.beq b.x && a.y.beq b.y

/-- Struct.js `Rect`: top-left x,y and size w,h. -/
structure Rect where
  x : Q
  y : Q
  w : Q
  h : Q
deriving DecidableEq, Repr

/-- `Rect.minX`. -/
def Rect.minX (r : Rect) : Q := r.x
/-- `Rect.minY`. -/
def Rect.minY (r : Rect) : Q := r.y
/-- `Rect.maxX = x + w`. -/
def Rect.maxX (r : Rect) : Q := r.x.add r.w
/-- `Rect.maxY = y + h`. -/
def Rect.maxY (r : Rect) : Q := r.y.add r.h

/-- Config.js: `minCollisionDistance = 0.4`. -/
def minCollisionDistance : Q := ⟨2, 5⟩

/-- Config.js: `collisionIterations = 1`. -/
def collisionIterations : Nat := 1

/-- Config.js `collisionIgnoreMatrix`; tags without an entry yield no list. -/
def collisionIgnoreMatrix : String → Option (List String)
  | "default" => some ["background"]
  | "player" => some ["player", "playerMissile"]
  | "playerMissile" => some ["playerMissile"]
  | "enemy" => some ["missile"]
  | _ => none

/-- BoxCollider.js `BoxCollider.intersects(a, b)`:
`!(a.minX + eps >= b.maxX || a.minY + eps >= b.maxY || b.minX + eps >= a.maxX || b.minY + eps >= a.maxY)`. -/
def BoxCollider.intersects (a b : Rect) : Bool :=
  !((a.minX.add minCollisionDistance).bge b.maxX ||
    (a.minY.add minCollisionDistance).bge b.maxY ||
    (b.minX.add minCollisionDistance).bge a.maxX ||
    (b.minY.add minCollisionDistance).bge a.maxY)

/-! ## The collider registry world (Collider.js, BoxCollider.js, GameObject.js position setter)

Colliders and game objects are identified by natural numbers.  Every collider
in the repository is a `BoxCollider`, so the shape data (size, offset,
resizeWithParent) lives directly in `ColliderData` and the shape test is the
box test.  `Collider.collisions` is the mutable per-collider overlap list and
`World.registry` is the process-wide `colliders` array. -/

/-- Pointwise update of a function out of `Nat` (one mutable table cell). -/
def setAt {α : Type} (f : Nat → α) (i : Nat) (v : α) : Nat → α :=
  fun j => if j = i then v else f j

/-- JS `list.splice(list.indexOf(x), 1)`: removes the first occurrence of `x`
if present; otherwise `indexOf` is -1 and `splice(-1, 1)` removes the LAST
element of the list. -/
def jsSpliceRemove (l : List Nat) (x : Nat) : List Nat :=
  if l.contains x then l.erase x else l.dropLast

/-- Collider.js `COLLISION_CHECK_METHOD`: 0 EVERY_FRAME, 1 ON_MOVED, 2 MANUAL. -/
def COLLISION_CHECK_METHOD.ON_MOVED : Nat := 1

/-- Per-collider state (Collider.js constructor plus BoxCollider.js fields). -/
structure ColliderData where
  tag : String
  isTrigger : Bool
  enabled : Bool
  owner : Nat
  size : Vector2
  offset : Vector2
  resizeWithParent : Bool
  collisionCheckMethod : Nat
  collisions : List Nat
deriving DecidableEq, Repr

/-- A collision/trigger callback dispatch recorded during a pass:
`source` is the collider whose update fired it (it dispatches to its owning
entity and that entity's other components), `other` the partner passed to the
callback, `trigger` whether the trigger or the collision family fired. -/
structure Event where
  source : Nat
  other : Nat
  trigger : Bool
  kind : Nat
deriving DecidableEq, Repr

/-- Event kind tags: 0 enter, 1 stay, 2 exit. -/
def Event.enter : Nat := 0
def Event.stay : Nat := 1
def Event.exit : Nat := 2

/-- The collision-related process state: the global `colliders` registry, the
per-collider data, and each owning game object's position, size and local
`_colliders` index.  `events` logs callback dispatches in order. -/
structure World where
  registry : List Nat
  colData : Nat → ColliderData
  objPos : Nat → Vector2
  objSize : Nat → Vector2
  objColliders : Nat → List Nat
  events : List Event

/-- Collider.js `isIgnoredByTags(a, b)`:
`(aMatrix != null && aMatrix.includes(b.tag)) || (bMatrix != null && bMatrix.includes(a.tag))`. -/
def isIgnoredByTags (a b : ColliderData) : Bool :=
  (match collisionIgnoreMatrix a.tag with
   | some m => m.contains b.tag
   | none => false) ||
  (match collisionIgnoreMatrix b.tag with
   | some m => m.contains a.tag
   | none => false)

/-- Collider.js `canCollide(other)`: both enabled and not tag-ignored. -/
def canCollide (a b : ColliderData) : Bool :=
  a.enabled && b.enabled && !(isIgnoredByTags a b)

/-- BoxCollider.js `bounds`: box centred on the owner's position, shifted by
`offset`, sized by `size`, both pre-multiplied by the owner's size when
`resizeWithParent` is set. -/
def bounds (w : World) (c : Nat) : Rect :=
  let d := w.colData c
  let psize := w.objSize d.owner
  let size : Vector2 :=
    if d.resizeWithParent then ⟨d.size.x.mul psize.x, d.size.y.mul psize.y⟩ else d.size
  let offset : Vector2 :=
    if d.resizeWithParent then ⟨d.offset.x.mul psize.x, d.offset.y.mul psize.y⟩ else d.offset
  let pos := ((w.objPos d.owner).substract (size.divide (Q.ofInt 2))).add offset
  ⟨pos.x, pos.y, size.x, size.y⟩

/-- BoxCollider.js `collides(other)`: the box test on the two bounds (every
collider constructed in this repository is a BoxCollider). -/
def collides (w : World) (self other : Nat) : Bool :=
  BoxCollider.intersects (bounds w self) (bounds w other)

/-- Collider.js `_onCollisionStart(other)`: push onto `collisions`, dispatch
the enter callbacks from `onId`'s perspective. -/
def onCollisionStartOp (w : World) (onId otherId : Nat) : World :=
  let d := w.colData onId
  { w with
    colData := setAt w.colData onId { d with collisions := d.collisions ++ [otherId] }
    events := w.events ++ [⟨onId, otherId, d.isTrigger, Event.enter⟩] }

/-- Collider.js `_onCollisionStay(other)`: dispatch the stay callbacks. -/
def onCollisionStayOp (w : World) (onId otherId : Nat) : World :=
  let d := w.colData onId
  { w with events := w.events ++ [⟨onId, otherId, d.isTrigger, Event.stay⟩] }

/-- Collider.js `_onCollisionStop(other)`:
`this.collisions.splice(this.collisions.indexOf(other), 1)` then dispatch the
exit callbacks. -/
def onCollisionStopOp (w : World) (onId otherId : Nat) : World :=
  let d := w.colData onId
  { w with
    colData := setAt w.colData onId { d with collisions := jsSpliceRemove d.collisions otherId }
    events := w.events ++ [⟨onId, otherId, d.isTrigger, Event.exit⟩] }

/-- One iteration of the `for (const other of colliders)` loop in
Collider.js `updateCollision()`.  Note that the loop body ASSIGNS
`collide = !this.isTrigger && !other.isTrigger` on every colliding partner,
so a later colliding pair overwrites the flag set by an earlier one. -/
def updateCollisionStep (selfId : Nat) (acc : World × Bool) (other : Nat) : World × Bool :=
  let w := acc.1
  let collide := acc.2
  let sd := w.colData selfId
  let od := w.colData other
  if od.owner = sd.owner then (w, collide)
  else
    let contns := sd.collisions.contains other
    if canCollide sd od && collides w selfId other then
      let collide := !sd.isTrigger && !od.isTrigger
      if !contns then (onCollisionStartOp w selfId other, collide)
      else (onCollisionStayOp w selfId other, collide)
    else
      if contns then (onCollisionStopOp w selfId other, collide)
      else (w, collide)

/-- Collider.js `updateCollision()`: fold the loop body over the registry,
starting from `collide = false`, and return the final flag. -/
def updateCollision (w : World) (selfId : Nat) : World × Bool :=
  w.registry.foldl (updateCollisionStep selfId) (w, false)

/-- Collider.js constructor tail: `colliders.push(this)`. -/
def colliderRegister (w : World) (selfId : Nat) : World :=
  { w with registry := w.registry ++ [selfId] }

/-- Collider.js `onDestroy()`: notify every partner recorded in THIS
collider's own `collisions` list via `_onCollisionStop(this)`, then
`colliders.splice(colliders.indexOf(this), 1)`. -/
def colliderOnDestroy (w : World) (selfId : Nat) : World :=
  let partners := (w.colData selfId).collisions
  let w := partners.foldl (fun w c => onCollisionStopOp w c selfId) w
  { w with registry := jsSpliceRemove w.registry selfId }

/-! ## GameObject.js position setter -/

/-- The world after `obj.localPosition = obj.localPosition.add({x: dx, y: dy})`
(the claims only concern root entities, whose local position is their
absolute position). -/
def movedWorld (w : World) (objId : Nat) (dx dy : Q) : World :=
  { w with objPos := setAt w.objPos objId ((w.objPos objId).add ⟨dx, dy⟩) }

/-- The `for (const col of obj._colliders)` loop of `collisionCheck`: on the
first ON_MOVED collider whose `updateCollision()` reports blocking, roll the
position back to `lastPosition` and return (the side effects of the pass on
the overlap lists are kept; only the position is restored). -/
def collisionCheckLoop (objId : Nat) (lastPosition : Vector2) :
    World → List Nat → World
  | w, [] => w
  | w, c :: rest =>
    if (w.colData c).collisionCheckMethod = COLLISION_CHECK_METHOD.ON_MOVED then
      let r := updateCollision w c
      if r.2 then { r.1 with objPos := setAt r.1.objPos objId lastPosition }
      else collisionCheckLoop objId lastPosition r.1 rest
    else collisionCheckLoop objId lastPosition w rest

/-- GameObject.js `collisionCheck(obj, deltaX, deltaY)`. -/
def collisionCheck (w : World) (objId : Nat) (dx dy : Q) : World :=
  let lastPosition := w.objPos objId
  collisionCheckLoop objId lastPosition (movedWorld w objId dx dy) (w.objColliders objId)

/-- GameObject.js `set position(value)`: no-op when already there; a direct
move when no collider is attached; otherwise `collisionIterations` rounds of
an X-axis step followed by a Y-axis step, each step resolved by
`collisionCheck`. -/
def setPosition (w : World) (objId : Nat) (value : Vector2) : World :=
  let currentPosition := w.objPos objId
  if currentPosition.equals value then w
  else
    let delta := value.substract currentPosition
    if (w.objColliders objId).isEmpty then
      { w with objPos := setAt w.objPos objId (currentPosition.add delta) }
    else
      let deltaStep := delta.divide (Q.ofInt (collisionIterations : ℤ))
      (List.range collisionIterations).foldl
        (fun w _ => collisionCheck (collisionCheck w objId deltaStep.x ⟨0, 1⟩) objId ⟨0, 1⟩ deltaStep.y)
        w

/-! ## Concrete worlds -/

/-- Integer-coordinate vector shorthand. -/
def qv (a b : ℤ) : Vector2 := ⟨⟨a, 1⟩, ⟨b, 1⟩⟩

/-- A 16×16 box collider with no offset, ON_MOVED, enabled, as constructed by
`new BoxCollider(tag, [16,16])`. -/
def boxData (tg : String) (trig : Bool) (own : Nat) : ColliderData :=
  { tag := tg, isTrigger := trig, enabled := true, owner := own,
    size := qv 16 16, offset := qv 0 0, resizeWithParent := false,
    collisionCheckMethod := COLLISION_CHECK_METHOD.ON_MOVED, collisions := [] }

/-- C1 world: collider 0 (non-trigger, entity 0 at the origin) overlaps both
collider 1 (non-trigger, entity 1 at (10,0)) and collider 2 (a trigger,
entity 2 at (-10,0)); registry order [0, 1, 2] so the trigger pair is tested
after the blocking pair. -/
def wC1 : World :=
  { registry := [0, 1, 2]
    colData := fun i =>
      if i = 0 then boxData "default" false 0
      else if i = 1 then boxData "default" false 1
      else boxData "default" true 2
    objPos := fun i => if i = 0 then qv 0 0 else if i = 1 then qv 10 0 else qv (-10) 0
    objSize := fun _ => qv 1 1
    objColliders := fun i => if i = 0 then [0] else if i = 1 then [1] else [2]
    events := [] }

/-- The same world with registry order [0, 2, 1] (blocking pair tested last):
here `updateCollision` does return true. -/
def wC1' : World := { wC1 with registry := [0, 2, 1] }

/-- Scenario 2 world: the "player" entity 0 at the origin with a 16×16
non-trigger ON_MOVED collider 0, and a stationary "enemy" entity 1 at (21,0)
with collider 1 — the boxes' facing edges are exactly 5 units apart. -/
def wC2 : World :=
  { registry := [0, 1]
    colData := fun i =>
      if i = 0 then boxData "player" false 0
      else boxData "enemy" false 1
    objPos := fun i => if i = 0 then qv 0 0 else qv 21 0
    objSize := fun _ => qv 1 1
    objColliders := fun i => if i = 0 then [0] else [1]
    events := [] }

/-! ## Component.js destroy, Utils.js game timeouts and the run.js timer loop

`Component.destroy` schedules the `des` closure through `setGameTimeout` and
records the timer id in `toDestoryObjects`; the timer table is the
`timers.timeouts` object of run.js, iterated each tick in ascending key
order (ids are handed out by an increasing counter, and JS objects iterate
integer-like keys in ascending numeric order).  The destroy-relevant world
is modelled separately from the collider world: the only observables the
destroy claims need are the layer populations and the order of `onDestroy`
dispatches, which `destroyEvents` logs (one entry per component receiving
`onDestroy`, then one for the game object itself). -/

/-- A pending timeout of the destroy pipeline: the remaining tick count and
the game object the captured `des` closure will destroy. -/
structure DTimeout where
  current_delay : ℤ
  goId : Nat
deriving DecidableEq, Repr

/-- Destroy-pipeline process state: run.js `timers` (id counter and the
timeout table as an association list in ascending-id order), Component.js
`toDestoryObjects`, GameObject.js `gameObjects` layers (null = hole),
per-object layer index and component list, and the `onDestroy` log. -/
structure DWorld where
  nextTimerId : Nat
  timeouts : List (Nat × DTimeout)
  toDestory : Nat → Option Nat
  gameObjects : Nat → Option (List Nat)
  updateLayer : Nat → Nat
  goComponents : Nat → List Nat
  destroyEvents : List Nat

/-- The `des` closure of Component.js `destroy`:
`if (toDestoryObjects[id]) clearGameTimeout(...)` (note a timer id of 0 is
falsy in JS, so it would not be cleared); `delete toDestoryObjects[id]`;
`layer.splice(layer.indexOf(gameObject), 1)`; `onDestroy` on every component
and then on the game object. -/
def des (w : DWorld) (goId : Nat) : DWorld :=
  let w1 :=
    match w.toDestory goId with
    | some tid =>
      if tid = 0 then w
      else { w with timeouts := w.timeouts.filter (fun e => decide (e.1 ≠ tid)) }
    | none => w
  let w2 := { w1 with toDestory := setAt w1.toDestory goId none }
  let lay := w2.updateLayer goId
  let layer := (w2.gameObjects lay).getD []
  let w3 := { w2 with gameObjects := setAt w2.gameObjects lay (some (jsSpliceRemove layer goId)) }
  { w3 with destroyEvents := w3.destroyEvents ++ w3.goComponents goId ++ [goId] }

/-- Component.js `static destroy(object, delay = 0)`: immediate `des()` when
`delay <= 0`, otherwise `toDestoryObjects[id] = setGameTimeout(des, delay)`
— the table entry is OVERWRITTEN; nothing clears a previously scheduled
timer at this point. -/
def Component.destroy (w : DWorld) (goId : Nat) (delay : ℤ) : DWorld :=
  if delay ≤ 0 then des w goId
  else
    { w with
      nextTimerId := w.nextTimerId + 1
      timeouts := w.timeouts ++ [(w.nextTimerId, ⟨delay, goId⟩)]
      toDestory := setAt w.toDestory goId (some w.nextTimerId) }

/-- One key of the run.js `UpdateTimers` timeout loop: skip keys already
deleted mid-iteration (JS for-in skips deleted keys), decrement
`current_delay`, fire the `des` callback when it reaches zero and remember
the key for deletion after the loop. -/
def dTimersStep (acc : DWorld × List Nat) (id : Nat) : DWorld × List Nat :=
  match acc.1.timeouts.lookup id with
  | none => acc
  | some t =>
    let t' : DTimeout := ⟨t.current_delay - 1, t.goId⟩
    let w := { acc.1 with
      timeouts := acc.1.timeouts.map (fun e => if e.1 = id then (id, t') else e) }
    if t'.current_delay ≤ 0 then (des w t'.goId, acc.2 ++ [id])
    else (w, acc.2)

/-- run.js `UpdateTimers` (timeout half; no intervals are scheduled by the
destroy pipeline): iterate over the keys present at loop start, then delete
every fired one-shot. -/
def dUpdateTimers (w : DWorld) : DWorld :=
  let keys := w.timeouts.map (fun e => e.1)
  let r := keys.foldl dTimersStep (w, [])
  { r.1 with timeouts := r.1.timeouts.filter (fun e => !(r.2.contains e.1)) }

/-- Advances the destroy world `n` ticks. -/
def dRunTicks (w : DWorld) : Nat → DWorld
  | 0 => w
  | n + 1 => dRunTicks (dUpdateTimers w) n

/-- C3/C4 world: entity 0 (one attached component, id 10) and entity 1 share
layer 0; no timers pending. -/
def wDestroy : DWorld :=
  { nextTimerId := 0
    timeouts := []
    toDestory := fun _ => none
    gameObjects := fun i => if i = 0 then some [0, 1] else none
    updateLayer := fun _ => 0
    goComponents := fun i => if i = 0 then [10] else []
    destroyEvents := [] }

/-! ## The generic one-shot timer service (Utils.js setGameTimeout / run.js UpdateTimers)

For claim C8 the scheduled callbacks are arbitrary gameplay callbacks that do
not touch the timer table, so `UpdateTimers` is modelled by its net effect on
the table: every live entry is decremented, entries reaching zero fire (their
ids are returned) and fired one-shots are deleted. -/

/-- Utils.js timeout record `{callback, delay, current_delay}` (the callback
is identified by the entry's id). -/
structure Timeout where
  delay : ℤ
  current_delay : ℤ
deriving DecidableEq, Repr

/-- run.js `timers` (timeout half): the id counter and the timeout table in
ascending-id order. -/
structure Timers where
  id : Nat
  timeouts : List (Nat × Timeout)
deriving DecidableEq, Repr

/-- Utils.js `setGameTimeout(callback, delay)`: allocate the next id and
store `{delay, current_delay: delay}`. -/
def setGameTimeout (t : Timers) (delay : ℤ) : Timers × Nat :=
  ({ id := t.id + 1, timeouts := t.timeouts ++ [(t.id, ⟨delay, delay⟩)] }, t.id)

/-- Utils.js `clearGameTimeout(timeout)`: delete the entry (a no-op on an
absent id). -/
def clearGameTimeout (t : Timers) (tid : Nat) : Timers :=
  { t with timeouts := t.timeouts.filter (fun e => decide (e.1 ≠ tid)) }

/-- run.js `UpdateTimers`, timeout half: decrement every `current_delay`,
fire the entries that reached zero (returned as the list of fired ids) and
delete them. -/
def UpdateTimers (t : Timers) : Timers × List Nat :=
  let dec := t.timeouts.map (fun e => (e.1, Timeout.mk e.2.delay (e.2.current_delay - 1)))
  let fired := (dec.filter (fun e => decide (e.2.current_delay ≤ 0))).map (fun e => e.1)
  ({ t with timeouts := dec.filter (fun e => !decide (e.2.current_delay ≤ 0)) }, fired)

/-- Advances the timer service `n` ticks, collecting every fired id in
order. -/
def runTimers (t : Timers) : Nat → Timers × List Nat
  | 0 => (t, [])
  | n + 1 =>
    let r := UpdateTimers t
    let r2 := runTimers r.1 n
    (r2.1, r.2 ++ r2.2)

/-- The empty timer service. -/
def emptyTimers : Timers := ⟨0, []⟩

/-! ## GameObject.js addComponent (claim C9) -/

/-- A component as `addComponent` sees it: whether it is an `Animator`, a
`Collider`, and its current `gameObject` owner reference. -/
structure CompData where
  isAnimator : Bool
  isCollider : Bool
  gameObjectRef : Option Nat
deriving DecidableEq, Repr

/-- The per-entity state `addComponent` touches: `_animator`, `_colliders`
and `components`. -/
structure EntState where
  animator : Option Nat
  colliders : List Nat
  components : List Nat
deriving DecidableEq, Repr

/-- Entity/component tables for the `addComponent` claim. -/
structure EWorld where
  ents : Nat → EntState
  comps : Nat → CompData

/-- The part of GameObject.js `addComponent` after the animator check:
push onto `_colliders` when the unit is a Collider, set
`component.gameObject = this`, push onto `components`. -/
def addComponentRest (w : EWorld) (entId compId : Nat) : EWorld :=
  let w1 :=
    if (w.comps compId).isCollider then
      { w with ents := (setAt w.ents entId
          { (w.ents entId) with colliders := (w.ents entId).colliders ++ [compId] }) }
    else w
  let w2 := { w1 with comps := (setAt w1.comps compId
      { (w1.comps compId) with gameObjectRef := some entId }) }
  { w2 with ents := (setAt w2.ents entId
      { (w2.ents entId) with components := (w2.ents entId).components ++ [compId] }) }

/-- GameObject.js `addComponent(component)`: when the unit is an `Animator`
and `_animator` is already set, `throw "An animator is already attached to
this gameObject!"` — before any mutation.  The second tuple component is the
thrown message (none when no throw). -/
def addComponent (w : EWorld) (entId compId : Nat) : EWorld × Option String :=
  if (w.comps compId).isAnimator then
    match (w.ents entId).animator with
    | none =>
      let w1 := { w with ents := (setAt w.ents entId
          { (w.ents entId) with animator := some compId }) }
      (addComponentRest w1 entId compId, none)
    | some _ => (w, some "An animator is already attached to this gameObject!")
  else (addComponentRest w entId compId, none)

/-- C9 world: entity 0 already has animator 5 attached; component 6 is a
second animator not attached anywhere. -/
def wAnim : EWorld :=
  { ents := fun i =>
      if i = 0 then { animator := some 5, colliders := [], components := [5] }
      else { animator := none, colliders := [], components := [] }
    comps := fun i =>
      if i = 5 then { isAnimator := true, isCollider := false, gameObjectRef := some 0 }
      else if i = 6 then { isAnimator := true, isCollider := false, gameObjectRef := none }
      else { isAnimator := false, isCollider := false, gameObjectRef := none } }

/-! ## GameObject.js static init and the run.js Update loop (claim C10) -/

/-- Layer state for the spawn claim: the `gameObjects` array (length and
cells, null = hole), each entity's recorded layer and enabled flag. -/
structure LWorld where
  gameObjects : Nat → Option (List Nat)
  glen : Nat
  updateLayer : Nat → Nat
  objEnabled : Nat → Bool

/-- GameObject.js `static init(object, layer = 0)`:
`if (gameObjects[layer] == null) gameObjects[layer] = []`, record
`updateLayer`, `gameObjects[layer].push(object)` — no membership check. -/
def GameObject.init (w : LWorld) (objId layer : Nat) : LWorld :=
  let cur := (w.gameObjects layer).getD []
  { w with
    gameObjects := setAt w.gameObjects layer (some (cur ++ [objId]))
    glen := max w.glen (layer + 1)
    updateLayer := setAt w.updateLayer objId layer }

/-- One layer's contribution to a simulation tick: nothing for a hole
(`layer != null` check), otherwise the enabled game objects in insertion
order. -/
def layerBlock (w : LWorld) (i : Nat) : List Nat :=
  match w.gameObjects i with
  | none => []
  | some l => l.filter (fun o => w.objEnabled o)

/-- run.js `Update`: for every layer in ascending index order (skipping
holes), every enabled game object in insertion order gets its `tick`; the
returned list is the sequence of `tick` dispatches of one simulation tick. -/
def Update (w : LWorld) : List Nat :=
  (List.range w.glen).foldr (fun i acc => layerBlock w i ++ acc) []

/-- An empty layer world where every entity is enabled. -/
def emptyLayers : LWorld :=
  { gameObjects := fun _ => none, glen := 0, updateLayer := fun _ => 0
    objEnabled := fun _ => true }

/-! ## Struct.js Vector2.moveTowards over the reals (claim C7) -/

/-- A vector over the reals, for the magnitude-based `Vector2.moveTowards`. -/
structure Vec2R where
  x : ℝ
  y : ℝ

noncomputable def Vec2R.add (a b : Vec2R) : Vec2R := ⟨a.x + b.x, a.y + b.y⟩

noncomputable def Vec2R.substract (a b : Vec2R) : Vec2R := ⟨a.x - b.x, a.y - b.y⟩

noncomputable def Vec2R.divide (a : Vec2R) (n : ℝ) : Vec2R := ⟨a.x / n, a.y / n⟩

/-- `Vector2.sqrMagnitude`. -/
noncomputable def Vec2R.sqrMagnitude (v : Vec2R) : ℝ := v.x * v.x + v.y * v.y

/-- `Vector2.magnitude`. -/
noncomputable def Vec2R.magnitude (v : Vec2R) : ℝ := Real.sqrt v.sqrMagnitude

open Classical in
/-- Struct.js `Vector2.moveTowards(current, target, maxDelta, isSqrMagnitued)`.
Note the else branch returns `current.add(delta.divide(distance))` — the unit
direction vector added to `current` — with no scaling by `maxDelta`. -/
noncomputable def Vec2R.moveTowards (current target : Vec2R) (maxDelta : ℝ)
    (isSqrMagnitued : Bool) : Vec2R :=
  let delta := target.substract current
  let distance := if isSqrMagnitued then delta.sqrMagnitude else delta.magnitude
  if maxDelta > distance ∨ distance = 0 then target
  else current.add (delta.divide distance)

/-- Utils.js `moveTowardsInt(value, to, stepSize)` (the scalar form of
moveTowards), over exact reals. -/
noncomputable def moveTowardsInt (value toVal stepSize : ℝ) : ℝ :=
  let dif := toVal - value
  let sign : ℝ := if dif > 0 then 1 else if dif < 0 then -1 else 0
  let dif' := if dif * sign > stepSize then stepSize * sign else dif
  value + dif'

/-! ## Remaining helper definitions for the claim statements -/

/-- The per-call axis step of the position setter:
`delta.divide(Config.collisionIterations)`. -/
def deltaStepOf (w : World) (objId : Nat) (value : Vector2) : Vector2 :=
  (value.substract (w.objPos objId)).divide (Q.ofInt (collisionIterations : ℤ))

/-- The world after the tentative X-axis move of the position setter. -/
def xMovedWorld (w : World) (objId : Nat) (value : Vector2) : World :=
  movedWorld w objId (deltaStepOf w objId value).x ⟨0, 1⟩

/-- The world after the X-axis pass reported blocking and the position was
rolled back (the pass's side effects on the overlap lists are kept). -/
def xBlockedWorld (w : World) (objId c : Nat) (value : Vector2) : World :=
  { (updateCollision (xMovedWorld w objId value) c).1 with
    objPos := (setAt (updateCollision (xMovedWorld w objId value) c).1.objPos objId
      (w.objPos objId)) }

/-- The world after the tentative Y-axis move following a blocked X axis. -/
def yMovedWorld (w : World) (objId c : Nat) (value : Vector2) : World :=
  movedWorld (xBlockedWorld w objId c value) objId ⟨0, 1⟩ (deltaStepOf w objId value).y

/-- C5 start state: colliders 0 and 1 overlap geometrically (entities 0 at
the origin and 1 at (10,0)); neither has recorded the other yet. -/
def wC5start : World :=
  { registry := [0, 1]
    colData := fun i => if i = 0 then boxData "default" false 0 else boxData "default" false 1
    objPos := fun i => if i = 0 then qv 0 0 else qv 10 0
    objSize := fun _ => qv 1 1
    objColliders := fun i => if i = 0 then [0] else [1]
    events := [] }

/-- The reachable asymmetric overlap state: only collider 0 has run its
`updateCollision` (its entity is the one that moved, with the default
ON_MOVED check method), so 0 records 1 in `collisions` but not conversely. -/
def wC5 : World := (updateCollision wC5start 0).1

/-- A symmetric overlap state (both sides have run their pass), the normal
situation the amended C5 theorem is instantiated with. -/
def wC5sym : World :=
  { wC5start with
    colData := fun i =>
      if i = 0 then { boxData "default" false 0 with collisions := [1] }
      else { boxData "default" false 1 with collisions := [0] } }

/-- The shape test as the spec words it: plain intersection inflated outward
by the epsilon on each side, i.e. colliding exactly when the gap on every
axis is below the epsilon. -/
def intersectsSpec (a b : Rect) : Bool :=
  ((a.minX.sub minCollisionDistance).blt b.maxX) &&
  ((a.minY.sub minCollisionDistance).blt b.maxY) &&
  ((b.minX.sub minCollisionDistance).blt a.maxX) &&
  ((b.minY.sub minCollisionDistance).blt a.maxY)

/-- A 16×16 rect at the origin. -/
def rectA : Rect := ⟨⟨0, 1⟩, ⟨0, 1⟩, ⟨16, 1⟩, ⟨16, 1⟩⟩

/-- A 16×16 rect 16.1 to the right of the origin: a 0.1 gap on the X axis,
full overlap on the Y axis. -/
def rectB : Rect := ⟨⟨161, 10⟩, ⟨0, 1⟩, ⟨16, 1⟩, ⟨16, 1⟩⟩

/-- Scenario 1 world: 16×16 box colliders centred at (0,0) and (15,15),
tags not mutually ignored. -/
def wScenario1 : World :=
  { registry := [0, 1]
    colData := fun i => if i = 0 then boxData "default" false 0 else boxData "default" false 1
    objPos := fun i => if i = 0 then qv 0 0 else qv 15 15
    objSize := fun _ => qv 1 1
    objColliders := fun i => if i = 0 then [0] else [1]
    events := [] }

/-- Scenario 1, second part: the second centre moved to (20,20). -/
def wScenario1' : World :=
  { wScenario1 with objPos := fun i => if i = 0 then qv 0 0 else qv 20 20 }

/-! # Theorems

## The fraction model denotes rational arithmetic -/

theorem Q.toRat_ofInt (n : ℤ) : (Q.ofInt n).toRat = (n : ℚ) := by
  simp [Q.ofInt, Q.toRat]

theorem Q.toRat_add (x y : Q) (hx : x.den ≠ 0) (hy : y.den ≠ 0) :
    (x.add y).toRat = x.toRat + y.toRat := by
  have hx' : (x.den : ℚ) ≠ 0 := Int.cast_ne_zero.mpr hx
  have hy' : (y.den : ℚ) ≠ 0 := Int.cast_ne_zero.mpr hy
  simp only [Q.add, Q.toRat]
  push_cast
  field_simp

theorem Q.toRat_neg (x : Q) : x.neg.toRat = -x.toRat := by
  simp [Q.neg, Q.toRat, neg_div]

theorem Q.toRat_sub (x y : Q) (hx : x.den ≠ 0) (hy : y.den ≠ 0) :
    (x.sub y).toRat = x.toRat - y.toRat := by
  have : y.neg.den = y.den := rfl
  rw [Q.sub, Q.toRat_add x y.neg hx (this ▸ hy), Q.toRat_neg, sub_eq_add_neg]

theorem Q.toRat_mul (x y : Q) (hx : x.den ≠ 0) (hy : y.den ≠ 0) :
    (x.mul y).toRat = x.toRat * y.toRat := by
  have hx' : (x.den : ℚ) ≠ 0 := Int.cast_ne_zero.mpr hx
  have hy' : (y.den : ℚ) ≠ 0 := Int.cast_ne_zero.mpr hy
  simp only [Q.mul, Q.toRat]
  push_cast
  field_simp

theorem Q.toRat_div (x y : Q) (hx : x.den ≠ 0) (hy : y.den ≠ 0) (hy0 : y.num ≠ 0) :
    (x.div y).toRat = x.toRat / y.toRat := by
  have hx' : (x.den : ℚ) ≠ 0 := Int.cast_ne_zero.mpr hx
  have hy' : (y.den : ℚ) ≠ 0 := Int.cast_ne_zero.mpr hy
  have hy0' : (y.num : ℚ) ≠ 0 := Int.cast_ne_zero.mpr hy0
  simp only [Q.div, Q.toRat]
  push_cast
  field_simp

theorem Q.beq_iff_toRat (x y : Q) (hx : x.den ≠ 0) (hy : y.den ≠ 0) :
    x.beq y = true ↔ x.toRat = y.toRat := by
  have hx' : (x.den : ℚ) ≠ 0 := Int.cast_ne_zero.mpr hx
  have hy' : (y.den : ℚ) ≠ 0 := Int.cast_ne_zero.mpr hy
  simp only [Q.beq, decide_eq_true_eq, Q.toRat]
  rw [div_eq_div_iff hx' hy']
  constructor
  · intro h
    exact_mod_cast congrArg (fun z : ℤ => (z : ℚ)) h
  · intro h
    exact_mod_cast h

theorem Q.ble_iff_toRat (x y : Q) (hx : x.den ≠ 0) (hy : y.den ≠ 0) :
    x.ble y = true ↔ x.toRat ≤ y.toRat := by
  have hx2 : (0 : ℚ) < (x.den : ℚ) ^ 2 := by
    have : (x.den : ℚ) ≠ 0 := Int.cast_ne_zero.mpr hx
    positivity
  have hy2 : (0 : ℚ) < (y.den : ℚ) ^ 2 := by
    have : (y.den : ℚ) ≠ 0 := Int.cast_ne_zero.mpr hy
    positivity
  have hx' : (x.den : ℚ) ≠ 0 := Int.cast_ne_zero.mpr hx
  have hy' : (y.den : ℚ) ≠ 0 := Int.cast_ne_zero.mpr hy
  simp only [Q.ble, decide_eq_true_eq, Q.toRat]
  have hrw : ∀ a b : ℤ, (b : ℚ) ≠ 0 → (a : ℚ) / (b : ℚ) = (a * b : ℚ) / (b : ℚ) ^ 2 := by
    intro a b hb
    rw [sq]
    rw [mul_div_mul_right _ _ hb]
  rw [hrw x.num x.den hx', hrw y.num y.den hy', div_le_div_iff₀ hx2 hy2]
  constructor
  · intro h
    have h' : ((x.num * x.den * (y.den * y.den) : ℤ) : ℚ) ≤
        ((y.num * y.den * (x.den * x.den) : ℤ) : ℚ) := by exact_mod_cast h
    push_cast at h'
    ring_nf
    ring_nf at h'
    linarith
  · intro h
    have h' : ((x.num : ℚ) * x.den * (y.den * y.den)) ≤ ((y.num : ℚ) * y.den * (x.den * x.den)) := by
      ring_nf
      ring_nf at h
      linarith
    exact_mod_cast h'

/-! # Preservation lemmas for the collision pass

`updateCollision` only touches the `collisions` lists and the event log:
positions, sizes, the registry, the per-object collider index and every other
collider field are untouched. -/

theorem updateCollisionStep_objPos (selfId : Nat) (acc : World × Bool) (other : Nat) :
    (updateCollisionStep selfId acc other).1.objPos = acc.1.objPos := by
  unfold updateCollisionStep onCollisionStartOp onCollisionStayOp onCollisionStopOp
  dsimp only
  repeat' split
  all_goals rfl

theorem updateCollisionStep_objColliders (selfId : Nat) (acc : World × Bool) (other : Nat) :
    (updateCollisionStep selfId acc other).1.objColliders = acc.1.objColliders := by
  unfold updateCollisionStep onCollisionStartOp onCollisionStayOp onCollisionStopOp
  dsimp only
  repeat' split
  all_goals rfl

theorem updateCollisionStep_method (selfId : Nat) (acc : World × Bool) (other i : Nat) :
    ((updateCollisionStep selfId acc other).1.colData i).collisionCheckMethod
      = (acc.1.colData i).collisionCheckMethod := by
  unfold updateCollisionStep onCollisionStartOp onCollisionStayOp onCollisionStopOp
  dsimp only
  repeat' split
  all_goals simp only [setAt]
  all_goals split
  all_goals simp_all

theorem updateCollisionFold_objPos (selfId : Nat) (l : List Nat) (acc : World × Bool) :
    (l.foldl (updateCollisionStep selfId) acc).1.objPos = acc.1.objPos := by
  induction l generalizing acc with
  | nil => rfl
  | cons h t ih => rw [List.foldl_cons, ih, updateCollisionStep_objPos]

theorem updateCollisionFold_objColliders (selfId : Nat) (l : List Nat) (acc : World × Bool) :
    (l.foldl (updateCollisionStep selfId) acc).1.objColliders = acc.1.objColliders := by
  induction l generalizing acc with
  | nil => rfl
  | cons h t ih => rw [List.foldl_cons, ih, updateCollisionStep_objColliders]

theorem updateCollisionFold_method (selfId : Nat) (l : List Nat) (acc : World × Bool) (i : Nat) :
    ((l.foldl (updateCollisionStep selfId) acc).1.colData i).collisionCheckMethod
      = (acc.1.colData i).collisionCheckMethod := by
  induction l generalizing acc with
  | nil => rfl
  | cons h t ih => rw [List.foldl_cons, ih, updateCollisionStep_method]

theorem updateCollision_objPos (w : World) (selfId : Nat) :
    (updateCollision w selfId).1.objPos = w.objPos :=
  updateCollisionFold_objPos selfId w.registry (w, false)

theorem updateCollision_objColliders (w : World) (selfId : Nat) :
    (updateCollision w selfId).1.objColliders = w.objColliders :=
  updateCollisionFold_objColliders selfId w.registry (w, false)

theorem updateCollision_method (w : World) (selfId i : Nat) :
    ((updateCollision w selfId).1.colData i).collisionCheckMethod
      = (w.colData i).collisionCheckMethod :=
  updateCollisionFold_method selfId w.registry (w, false) i

/-! # Claim theorems -/

/-- C1: the claim says `updateCollision()` returns true iff at least one
blocking overlap exists, a blocking overlap anywhere in the pass sufficing
whatever is tested after it.  In `wC1`, collider 1 is a blocking overlap of
collider 0 (enabled, not tag-ignored, different owner, both non-trigger,
shapes colliding) and is tested before the overlapping trigger collider 2 —
yet `updateCollision` returns false, because the loop body overwrites
`collide` with `!this.isTrigger && !other.isTrigger` on every colliding
partner instead of accumulating; with the registry order [0, 2, 1] the same
overlaps yield true.  This contradicts the function's own doc comment
("returns whether the collision found a non-trigger collision"). -/
theorem C1_blocking_overlap_not_reported :
    canCollide (wC1.colData 0) (wC1.colData 1) = true ∧
    collides wC1 0 1 = true ∧
    (wC1.colData 0).isTrigger = false ∧
    (wC1.colData 1).isTrigger = false ∧
    (1 : Nat) ∈ wC1.registry ∧
    (wC1.colData 1).owner ≠ (wC1.colData 0).owner ∧
    (updateCollision wC1 0).2 = false ∧
    (updateCollision wC1' 0).2 = true := by
  decide

/-- C9: attaching a second animation driver raises the configuration error
synchronously and mutates nothing: the first driver is still the animator,
the rejected unit is not in the attached-units list, and its owner reference
is not set to the entity. -/
theorem C9_second_animator_rejected (w : EWorld) (entId compId a : Nat)
    (ha : (w.ents entId).animator = some a)
    (hanim : (w.comps compId).isAnimator = true)
    (hnotin : compId ∉ (w.ents entId).components)
    (howner : (w.comps compId).gameObjectRef ≠ some entId) :
    (addComponent w entId compId).2
        = some "An animator is already attached to this gameObject!" ∧
    (addComponent w entId compId).1 = w ∧
    ((addComponent w entId compId).1.ents entId).animator = some a ∧
    compId ∉ ((addComponent w entId compId).1.ents entId).components ∧
    ((addComponent w entId compId).1.comps compId).gameObjectRef ≠ some entId := by
  unfold addComponent
  rw [hanim, ha]
  exact ⟨rfl, rfl, ha, hnotin, howner⟩

/-- C6 counterexample: `rectA` and `rectB` are separated by a 0.1 gap on the
X axis (below the 0.4 epsilon) and overlap on the Y axis, so the claim's
inflated-outward reading (`intersectsSpec`) calls them colliding — but
`BoxCollider.intersects` returns false: the code adds the epsilon on the min
side of the comparison, shrinking the collision region instead of inflating
it. -/
theorem C6_counterexample :
    intersectsSpec rectA rectB = true ∧
    (rectB.minX.sub rectA.maxX).blt minCollisionDistance = true ∧
    BoxCollider.intersects rectA rectB = false := by
  decide

/-- C6 amended: `BoxCollider.intersects` is the intersection test deflated
INWARD by the epsilon: the boxes collide exactly when they overlap by more
than 0.4 on every axis (rects that touch, are separated, or overlap by at
most the epsilon never collide).  Scenario 1 still behaves as the spec says:
centres (0,0)/(15,15) overlap by 1 > 0.4 on each axis and collide; at
(20,20) they do not. -/
theorem C6_amended (a b : Rect) (ha1 : a.x.den ≠ 0) (ha2 : a.y.den ≠ 0)
    (ha3 : a.w.den ≠ 0) (ha4 : a.h.den ≠ 0) (hb1 : b.x.den ≠ 0) (hb2 : b.y.den ≠ 0)
    (hb3 : b.w.den ≠ 0) (hb4 : b.h.den ≠ 0) :
    (BoxCollider.intersects a b = true ↔
      (a.minX.toRat + 2/5 < b.maxX.toRat ∧ a.minY.toRat + 2/5 < b.maxY.toRat ∧
       b.minX.toRat + 2/5 < a.maxX.toRat ∧ b.minY.toRat + 2/5 < a.maxY.toRat)) ∧
    collides wScenario1 0 1 = true ∧ collides wScenario1' 0 1 = false := by
  refine ⟨?_, by decide, by decide⟩
  have heps : minCollisionDistance.toRat = 2/5 := by norm_num [minCollisionDistance, Q.toRat]
  have key : ∀ u v : Q, u.den ≠ 0 → v.den ≠ 0 → (Q.ble u v = false ↔ v.toRat < u.toRat) := by
    intro u v hu hv
    rw [← Bool.not_eq_true, Q.ble_iff_toRat u v hu hv]
    exact not_le
  have hadd : ∀ u : Q, u.den ≠ 0 → (u.add minCollisionDistance).toRat = u.toRat + 2/5 := by
    intro u hu
    rw [Q.toRat_add u minCollisionDistance hu (by norm_num [minCollisionDistance]), heps]
  unfold BoxCollider.intersects Q.bge Rect.minX Rect.minY Rect.maxX Rect.maxY
  simp only [Bool.not_or, Bool.and_eq_true, Bool.not_eq_true']
  rw [key _ _ (mul_ne_zero hb1 hb3) (mul_ne_zero ha1 (by norm_num : (5:ℤ) ≠ 0)),
      key _ _ (mul_ne_zero hb2 hb4) (mul_ne_zero ha2 (by norm_num : (5:ℤ) ≠ 0)),
      key _ _ (mul_ne_zero ha1 ha3) (mul_ne_zero hb1 (by norm_num : (5:ℤ) ≠ 0)),
      key _ _ (mul_ne_zero ha2 ha4) (mul_ne_zero hb2 (by norm_num : (5:ℤ) ≠ 0)),
      hadd _ ha1, hadd _ ha2, hadd _ hb1, hadd _ hb2]
  simp only [and_assoc]

/-- C6 witness for the amended characterization, at the counterexample pair:
the 0.1-gap rects fail the overlap-beyond-epsilon conditions. -/
theorem C6_amended_witness :
    (BoxCollider.intersects rectA rectB = true ↔
      (rectA.minX.toRat + 2/5 < rectB.maxX.toRat ∧
       rectA.minY.toRat + 2/5 < rectB.maxY.toRat ∧
       rectB.minX.toRat + 2/5 < rectA.maxX.toRat ∧
       rectB.minY.toRat + 2/5 < rectA.maxY.toRat)) ∧
    collides wScenario1 0 1 = true ∧ collides wScenario1' 0 1 = false :=
  C6_amended rectA rectB (by decide) (by decide) (by decide) (by decide) (by decide)
    (by decide) (by decide) (by decide)

/-- Counting tick dispatches through the layer fold. -/
theorem count_foldr_layers (e : Nat) (blk : Nat → List Nat) (l : List Nat) (init : List Nat) :
    (l.foldr (fun i acc => blk i ++ acc) init).count e
      = (l.map (fun i => (blk i).count e)).sum + init.count e := by
  induction l with
  | nil => simp
  | cons h t ih => simp [List.count_append, ih, Nat.add_assoc]

/-- List-range sums are Finset-range sums. -/
theorem sum_map_range (n : Nat) (f : Nat → Nat) :
    ((List.range n).map f).sum = ∑ i in Finset.range n, f i := by
  induction n with
  | zero => simp
  | succ k ih =>
    rw [List.range_succ, Finset.sum_range_succ, List.map_append, List.sum_append, ih]
    simp

/-- The tick-dispatch count of one `Update` pass, layer by layer. -/
theorem count_Update (w : LWorld) (e : Nat) :
    (Update w).count e = ∑ i in Finset.range w.glen, (layerBlock w i).count e := by
  rw [Update, count_foldr_layers, sum_map_range]
  simp

/-- C10: `GameObject.init` appends unconditionally — no membership check —
so a second `init` of the same entity, into the same or into a different
layer, registers it a second time, and one `Update` pass dispatches its
`tick` twice more than before. -/
theorem C10_init_twice_ticks_twice (w : LWorld) (e L1 L2 : Nat)
    (hwf : ∀ i, w.glen ≤ i → w.gameObjects i = none)
    (hen : w.objEnabled e = true) :
    (Update (GameObject.init (GameObject.init w e L1) e L2)).count e
      = (Update w).count e + 2 := by
  set w2 := GameObject.init (GameObject.init w e L1) e L2 with hw2
  have hglen : w2.glen = max (max w.glen (L1 + 1)) (L2 + 1) := rfl
  have hen2 : w2.objEnabled = w.objEnabled := rfl
  have hcell : ∀ (v : LWorld), v.objEnabled = w.objEnabled → ∀ j, (layerBlock v j).count e
      = (((v.gameObjects j).getD []).filter (fun o => w.objEnabled o)).count e := by
    intro v hv j
    rw [layerBlock, hv]
    cases h : v.gameObjects j <;> simp [h]
  have hblk : ∀ i, (layerBlock w2 i).count e
      = (layerBlock w i).count e
        + ((if i = L1 then 1 else 0) + (if i = L2 then 1 else 0)) := by
    intro i
    rw [hcell w2 hen2 i, hcell w rfl i]
    by_cases h2 : i = L2
    · subst h2
      by_cases h1 : i = L1
      · subst h1
        have hgo : w2.gameObjects i
            = some (((w.gameObjects i).getD []) ++ [e] ++ [e]) := by
          simp [hw2, GameObject.init, setAt, List.append_assoc]
        rw [hgo]
        simp [List.filter_append, List.count_append, hen]
      · have hgo : w2.gameObjects i
            = some (((w.gameObjects i).getD []) ++ [e]) := by
          simp [hw2, GameObject.init, setAt, h1]
        rw [hgo]
        simp [List.filter_append, List.count_append, hen, h1]
    · by_cases h1 : i = L1
      · subst h1
        have hgo : w2.gameObjects i
            = some (((w.gameObjects i).getD []) ++ [e]) := by
          simp [hw2, GameObject.init, setAt, h2]
        rw [hgo]
        simp [List.filter_append, List.count_append, hen, h2]
      · have hgo : w2.gameObjects i = w.gameObjects i := by
          simp [hw2, GameObject.init, setAt, h1, h2]
        rw [hgo]
        simp [h1, h2]
  rw [count_Update, count_Update, hglen]
  calc
    ∑ i in Finset.range (max (max w.glen (L1 + 1)) (L2 + 1)), (layerBlock w2 i).count e
        = ∑ i in Finset.range (max (max w.glen (L1 + 1)) (L2 + 1)),
            ((layerBlock w i).count e
              + ((if i = L1 then 1 else 0) + (if i = L2 then 1 else 0))) :=
      Finset.sum_congr rfl (fun i _ => hblk i)
    _ = (∑ i in Finset.range (max (max w.glen (L1 + 1)) (L2 + 1)), (layerBlock w i).count e)
          + ((∑ i in Finset.range (max (max w.glen (L1 + 1)) (L2 + 1)),
              (if i = L1 then 1 else 0))
            + ∑ i in Finset.range (max (max w.glen (L1 + 1)) (L2 + 1)),
              (if i = L2 then 1 else 0)) := by
      rw [Finset.sum_add_distrib, Finset.sum_add_distrib]
    _ = (∑ i in Finset.range w.glen, (layerBlock w i).count e) + 2 := by
      have hL1 : ∑ i in Finset.range (max (max w.glen (L1 + 1)) (L2 + 1)),
          (if i = L1 then 1 else 0) = 1 := by
        rw [Finset.sum_ite_eq' (Finset.range (max (max w.glen (L1 + 1)) (L2 + 1))) L1
          (fun _ => 1)]
        have : L1 ∈ Finset.range (max (max w.glen (L1 + 1)) (L2 + 1)) := by
          rw [Finset.mem_range]
          omega
        simp [this]
      have hL2 : ∑ i in Finset.range (max (max w.glen (L1 + 1)) (L2 + 1)),
          (if i = L2 then 1 else 0) = 1 := by
        rw [Finset.sum_ite_eq' (Finset.range (max (max w.glen (L1 + 1)) (L2 + 1))) L2
          (fun _ => 1)]
        have : L2 ∈ Finset.range (max (max w.glen (L1 + 1)) (L2 + 1)) := by
          rw [Finset.mem_range]
          omega
        simp [this]
      have hbase : ∑ i in Finset.range (max (max w.glen (L1 + 1)) (L2 + 1)),
          (layerBlock w i).count e
          = ∑ i in Finset.range w.glen, (layerBlock w i).count e := by
        symm
        apply Finset.sum_subset
        · exact Finset.range_subset.mpr
            (le_trans (Nat.le_max_left _ _) (Nat.le_max_left _ _))
        · intro i _ hni
          have : w.glen ≤ i := by
            rw [Finset.mem_range] at hni
            omega
          rw [layerBlock, hwf i this]
          simp
      rw [hL1, hL2, hbase]

/-- C10 witness: a fresh world; entity 7 initialized twice into the same
layer (3 and 3) and, separately, into two different layers (3 and 5) — in
both populations one Update pass ticks it twice. -/
theorem C10_witness :
    ((Update (GameObject.init (GameObject.init emptyLayers 7 3) 7 3)).count 7
        = (Update emptyLayers).count 7 + 2) ∧
    ((Update (GameObject.init (GameObject.init emptyLayers 7 3) 7 5)).count 7
        = (Update emptyLayers).count 7 + 2) :=
  ⟨C10_init_twice_ticks_twice emptyLayers 7 3 3 (fun _ _ => rfl) (by decide),
   C10_init_twice_ticks_twice emptyLayers 7 3 5 (fun _ _ => rfl) (by decide)⟩

/-- Key freshness survives the per-tick decrement map. -/
theorem keys_map_dec (l : List (Nat × Timeout)) (tid : Nat) (h : ∀ e ∈ l, e.1 ≠ tid) :
    ∀ e ∈ l.map (fun e => (e.1, Timeout.mk e.2.delay (e.2.current_delay - 1))), e.1 ≠ tid := by
  intro e he
  obtain ⟨a, ha, rfl⟩ := List.mem_map.mp he
  exact h a ha

/-- Key freshness survives filtering. -/
theorem keys_filter (l : List (Nat × Timeout)) (tid : Nat) (p : Nat × Timeout → Bool)
    (h : ∀ e ∈ l, e.1 ≠ tid) : ∀ e ∈ l.filter p, e.1 ≠ tid :=
  fun e he => h e (List.mem_of_mem_filter he)

/-- A key absent from a table never appears among its projected ids. -/
theorem count_keys_zero (l : List (Nat × Timeout)) (tid : Nat) (h : ∀ e ∈ l, e.1 ≠ tid) :
    (l.map (fun e => e.1)).count tid = 0 := by
  rw [List.count_eq_zero]
  intro hmem
  obtain ⟨a, ha, h1⟩ := List.mem_map.mp hmem
  exact h a ha h1

/-- One tick never fires an id that is not in the table, and does not create
it. -/
theorem UpdateTimers_fresh (t : Timers) (tid : Nat) (h : ∀ e ∈ t.timeouts, e.1 ≠ tid) :
    (∀ e ∈ (UpdateTimers t).1.timeouts, e.1 ≠ tid) ∧ (UpdateTimers t).2.count tid = 0 := by
  unfold UpdateTimers
  dsimp only
  exact ⟨keys_filter _ tid _ (keys_map_dec t.timeouts tid h),
    count_keys_zero _ tid (keys_filter _ tid _ (keys_map_dec t.timeouts tid h))⟩

/-- An id not in the table never fires, over any number of ticks. -/
theorem runTimers_fresh (n : Nat) (t : Timers) (tid : Nat)
    (h : ∀ e ∈ t.timeouts, e.1 ≠ tid) : (runTimers t n).2.count tid = 0 := by
  induction n generalizing t with
  | zero => rfl
  | succ k ih =>
    unfold runTimers
    dsimp only
    rw [List.count_append, (UpdateTimers_fresh t tid h).2,
      ih (UpdateTimers t).1 (UpdateTimers_fresh t tid h).1]

/-- The firing profile of one live entry with `current_delay = c > 0`,
appearing exactly once in the table: over `n` ticks it fires exactly once
when `c ≤ n` and not at all otherwise. -/
theorem timers_entry_count (n : Nat) (t : Timers) (tid : Nat) (d0 c : ℤ)
    (l1 l2 : List (Nat × Timeout))
    (hsplit : t.timeouts = l1 ++ (tid, ⟨d0, c⟩) :: l2)
    (h1 : ∀ e ∈ l1, e.1 ≠ tid) (h2 : ∀ e ∈ l2, e.1 ≠ tid)
    (hc : 0 < c) :
    (runTimers t n).2.count tid = if c ≤ (n : ℤ) then 1 else 0 := by
  induction n generalizing t c l1 l2 with
  | zero =>
    rw [if_neg (by exact_mod_cast (by omega : ¬ c ≤ (0:ℤ)))]
    rfl
  | succ k ih =>
    unfold runTimers
    dsimp only
    rw [List.count_append]
    have hdec : (UpdateTimers t).1.timeouts
        = (((l1.map (fun e => (e.1, Timeout.mk e.2.delay (e.2.current_delay - 1))))
            ++ (tid, Timeout.mk d0 (c - 1))
              :: (l2.map (fun e => (e.1, Timeout.mk e.2.delay (e.2.current_delay - 1))))).filter
            (fun e => !decide (e.2.current_delay ≤ 0))) := by
      unfold UpdateTimers
      rw [hsplit]
      simp
    have hfired : (UpdateTimers t).2
        = ((((l1.map (fun e => (e.1, Timeout.mk e.2.delay (e.2.current_delay - 1))))
            ++ (tid, Timeout.mk d0 (c - 1))
              :: (l2.map (fun e => (e.1, Timeout.mk e.2.delay (e.2.current_delay - 1))))).filter
            (fun e => decide (e.2.current_delay ≤ 0))).map (fun e => e.1)) := by
      unfold UpdateTimers
      rw [hsplit]
      simp
    by_cases hcc : c - 1 ≤ 0
    · have hc1 : c = 1 := by omega
      have hcount1 : (UpdateTimers t).2.count tid = 1 := by
        rw [hfired, List.filter_append, List.map_append, List.count_append,
          count_keys_zero _ tid (keys_filter _ tid _ (keys_map_dec l1 tid h1))]
        rw [List.filter_cons_of_pos (by simp; omega)]
        simp only [List.map_cons, List.count_cons_self, Nat.add_comm]
        rw [count_keys_zero _ tid (keys_filter _ tid _ (keys_map_dec l2 tid h2))]
      have hfresh2 : ∀ e ∈ (UpdateTimers t).1.timeouts, e.1 ≠ tid := by
        rw [hdec]
        intro e he
        rw [List.mem_filter] at he
        rcases List.mem_append.mp he.1 with hm | hm
        · exact keys_map_dec l1 tid h1 e hm
        · rcases List.mem_cons.mp hm with hm2 | hm2
          · exfalso
            rw [hm2] at he
            simp at he
            omega
          · exact keys_map_dec l2 tid h2 e hm2
      rw [hcount1, runTimers_fresh k (UpdateTimers t).1 tid hfresh2,
        if_pos (by push_cast; omega)]
    · have hcount0 : (UpdateTimers t).2.count tid = 0 := by
        rw [hfired, List.filter_append, List.map_append, List.count_append,
          count_keys_zero _ tid (keys_filter _ tid _ (keys_map_dec l1 tid h1))]
        rw [List.filter_cons_of_neg (by simp; omega)]
        rw [count_keys_zero _ tid (keys_filter _ tid _ (keys_map_dec l2 tid h2))]
      have hnext := ih (UpdateTimers t).1 (c - 1)
        ((l1.map (fun e => (e.1, Timeout.mk e.2.delay (e.2.current_delay - 1)))).filter
          (fun e => !decide (e.2.current_delay ≤ 0)))
        ((l2.map (fun e => (e.1, Timeout.mk e.2.delay (e.2.current_delay - 1)))).filter
          (fun e => !decide (e.2.current_delay ≤ 0)))
        (by rw [hdec, List.filter_append, List.filter_cons_of_pos (by simp; omega)])
        (keys_filter _ tid _ (keys_map_dec l1 tid h1))
        (keys_filter _ tid _ (keys_map_dec l2 tid h2))
        (by omega)
      rw [hcount0, hnext]
      have : (c ≤ (k:ℤ) + 1) ↔ (c - 1 ≤ (k:ℤ)) := by omega
      by_cases hck : c - 1 ≤ (k:ℤ)
      · rw [if_pos hck, if_pos (by push_cast; omega)]
      · rw [if_neg hck, if_neg (by push_cast; omega)]

/-- C8: a one-shot scheduled with delay d > 0 in a well-formed table (every
existing key below the id counter) fires zero times during the first d−1
ticks, exactly once at tick d, and never again on any later tick. -/
theorem C8_one_shot_fires_exactly_once (t : Timers) (d : ℤ) (hd : 0 < d)
    (hfresh : ∀ e ∈ t.timeouts, e.1 < t.id) :
    ∀ n : Nat, (runTimers (setGameTimeout t d).1 n).2.count (setGameTimeout t d).2
      = if d ≤ (n : ℤ) then 1 else 0 := by
  intro n
  apply timers_entry_count n _ t.id d d t.timeouts [] _ _ _ hd
  · rfl
  · exact fun e he => Nat.ne_of_lt (hfresh e he)
  · intro e he
    exact absurd he (List.not_mem_nil e)

/-- C8 witness: schedule with delay 3 on a fresh service; cumulative firing
counts after 2, 3 and 13 ticks are 0, 1 and 1 (it fires at tick 3 and never
again). -/
theorem C8_witness :
    (runTimers (setGameTimeout emptyTimers 3).1 2).2.count 0 = 0 ∧
    (runTimers (setGameTimeout emptyTimers 3).1 3).2.count 0 = 1 ∧
    (runTimers (setGameTimeout emptyTimers 3).1 13).2.count 0 = 1 := by
  have h := C8_one_shot_fires_exactly_once emptyTimers 3 (by decide)
    (by intro e he; exact absurd he (List.not_mem_nil e))
  exact ⟨by simpa using h 2, by simpa using h 3, by simpa using h 13⟩

/-- C3: in `wDestroy`, entity 0 (components [10]) and entity 1 share layer 0.
After `destroy(e,5)` then `destroy(e,2)`, tick 2 performs the destruction
once (events [10,0], layer now [1]) — but the first timer was never
cancelled (scheduling only overwrites the `toDestoryObjects` entry, and the
`clearGameTimeout` inside `des` clears the id stored there, which is the
second timer's).  At tick 5 the first timer fires `des` again: `onDestroy`
fires a second time on the component and the entity, and
`splice(indexOf == -1, 1)` removes the innocent last entity 1 from the
layer.  The claim's "exactly one destruction, never twice" fails. -/
theorem C3_second_delayed_destroy_double_fires :
    (dRunTicks (Component.destroy (Component.destroy wDestroy 0 5) 0 2) 2).destroyEvents
        = [10, 0] ∧
    (dRunTicks (Component.destroy (Component.destroy wDestroy 0 5) 0 2) 2).gameObjects 0
        = some [1] ∧
    (dRunTicks (Component.destroy (Component.destroy wDestroy 0 5) 0 2) 5).destroyEvents
        = [10, 0, 10, 0] ∧
    (dRunTicks (Component.destroy (Component.destroy wDestroy 0 5) 0 2) 5).gameObjects 0
        = some [] := by
  decide

/-- C4: immediate destroy is NOT idempotent.  The first `destroy(e)` removes
entity 0 and fires `onDestroy` once per unit; the second call finds
`indexOf == -1` and `splice(-1, 1)` removes the layer's last element — the
unrelated entity 1 — and re-fires `onDestroy` on entity 0 and its unit. -/
theorem C4_immediate_double_destroy_not_idempotent :
    (Component.destroy wDestroy 0 0).destroyEvents = [10, 0] ∧
    (Component.destroy wDestroy 0 0).gameObjects 0 = some [1] ∧
    (Component.destroy (Component.destroy wDestroy 0 0) 0 0).destroyEvents
        = [10, 0, 10, 0] ∧
    (Component.destroy (Component.destroy wDestroy 0 0) 0 0).gameObjects 0 = some [] := by
  decide

/-! # Lemmas on the destruction notification fold (Collider.onDestroy) -/

theorem onCollisionStopOp_registry (w : World) (onId otherId : Nat) :
    (onCollisionStopOp w onId otherId).registry = w.registry := rfl

theorem onCollisionStopOp_colData_other (w : World) (onId otherId i : Nat) (hi : i ≠ onId) :
    (onCollisionStopOp w onId otherId).colData i = w.colData i := by
  simp [onCollisionStopOp, setAt, hi]

theorem onCollisionStopOp_colData_self (w : World) (onId otherId : Nat) :
    (onCollisionStopOp w onId otherId).colData onId
      = { w.colData onId with
          collisions := jsSpliceRemove (w.colData onId).collisions otherId } := by
  simp [onCollisionStopOp, setAt]

theorem onCollisionStopOp_isTrigger (w : World) (onId otherId i : Nat) :
    ((onCollisionStopOp w onId otherId).colData i).isTrigger = (w.colData i).isTrigger := by
  by_cases hi : i = onId
  · subst hi
    rw [onCollisionStopOp_colData_self]
  · rw [onCollisionStopOp_colData_other w onId otherId i hi]

theorem onCollisionStopOp_events (w : World) (onId otherId : Nat) :
    (onCollisionStopOp w onId otherId).events
      = w.events ++ [⟨onId, otherId, (w.colData onId).isTrigger, Event.exit⟩] := rfl

theorem stopFold_registry (selfId : Nat) (ps : List Nat) (w : World) :
    (ps.foldl (fun w c => onCollisionStopOp w c selfId) w).registry = w.registry := by
  induction ps generalizing w with
  | nil => rfl
  | cons q t ih => rw [List.foldl_cons, ih, onCollisionStopOp_registry]

theorem stopFold_colData_not_mem (selfId : Nat) (ps : List Nat) (w : World) (p : Nat)
    (hp : p ∉ ps) :
    (ps.foldl (fun w c => onCollisionStopOp w c selfId) w).colData p = w.colData p := by
  induction ps generalizing w with
  | nil => rfl
  | cons q t ih =>
    rw [List.foldl_cons, ih _ (fun h => hp (List.mem_cons_of_mem q h)),
      onCollisionStopOp_colData_other _ _ _ _
        (fun h => hp (by rw [h]; exact List.mem_cons_self q t))]

theorem stopFold_colData_mem (selfId : Nat) (ps : List Nat) (w : World) (p : Nat)
    (hnd : ps.Nodup) (hp : p ∈ ps) :
    ((ps.foldl (fun w c => onCollisionStopOp w c selfId) w).colData p).collisions
      = jsSpliceRemove ((w.colData p).collisions) selfId := by
  induction ps generalizing w with
  | nil => exact absurd hp (List.not_mem_nil p)
  | cons q t ih =>
    rw [List.foldl_cons]
    rcases List.mem_cons.mp hp with rfl | hpt
    · have hnt : p ∉ t := (List.nodup_cons.mp hnd).1
      rw [stopFold_colData_not_mem selfId t _ p hnt, onCollisionStopOp_colData_self]
    · have hpq : p ≠ q := fun h => (List.nodup_cons.mp hnd).1 (h ▸ hpt)
      rw [ih _ (List.nodup_cons.mp hnd).2 hpt,
        onCollisionStopOp_colData_other w q selfId p hpq]

theorem stopFold_events (selfId : Nat) (ps : List Nat) (w : World) :
    (ps.foldl (fun w c => onCollisionStopOp w c selfId) w).events
      = w.events ++ ps.map (fun p => ⟨p, selfId, (w.colData p).isTrigger, Event.exit⟩) := by
  induction ps generalizing w with
  | nil => simp
  | cons q t ih =>
    rw [List.foldl_cons, ih, onCollisionStopOp_events]
    have hcongr :
        (fun p => Event.mk p selfId (((onCollisionStopOp w q selfId).colData p).isTrigger)
          Event.exit)
        = (fun p => Event.mk p selfId ((w.colData p).isTrigger) Event.exit) := by
      funext p
      rw [onCollisionStopOp_isTrigger]
    rw [hcongr]
    simp

/-- C5 counterexample: from `wC5start` (two overlapping non-trigger
colliders with empty overlap sets) one pass of collider 0's
`updateCollision` yields the reachable asymmetric state `wC5`: collider 0
records 1, collider 1 records nothing (its ON_MOVED entity did not move).
Destroying collider 1 then removes it from the registry but fires no exit
event, and the still-registered collider 0's overlap set still contains the
destroyed collider — so an invariant-satisfying state reaches one where a
destroyed Collider dangles in a partner's overlap set. -/
theorem C5_counterexample :
    (wC5.colData 0).collisions = [1] ∧
    (wC5.colData 1).collisions = [] ∧
    (colliderOnDestroy wC5 1).registry = [0] ∧
    1 ∈ ((colliderOnDestroy wC5 1).colData 0).collisions ∧
    (colliderOnDestroy wC5 1).events = wC5.events := by
  decide

/-- C5 amended: registration still puts a fresh collider in the registry
exactly once, and destruction with MUTUAL overlap recording (every partner
the destroyed collider records also records it back, and vice versa for
registered colliders, without duplicates) removes the collider from the
registry, purges it from every still-registered collider's overlap set and
fires an exit notification on every partner in its own overlap set; but a
partner that records the destroyed collider without being recorded back (as
in the counterexample) is neither notified nor purged. -/
theorem C5_amended (w : World) (selfId : Nat)
    (hreg : w.registry.count selfId = 1)
    (hnd : (w.colData selfId).collisions.Nodup)
    (hsym1 : ∀ p ∈ (w.colData selfId).collisions, selfId ∈ (w.colData p).collisions)
    (hsym2 : ∀ p ∈ w.registry, selfId ∈ (w.colData p).collisions →
      p ∈ (w.colData selfId).collisions)
    (hcnt : ∀ p ∈ w.registry, ((w.colData p).collisions.count selfId) ≤ 1) :
    (∀ v : World, ∀ i, i ∉ v.registry → (colliderRegister v i).registry.count i = 1) ∧
    (colliderOnDestroy w selfId).registry.count selfId = 0 ∧
    (∀ p ∈ (colliderOnDestroy w selfId).registry,
      selfId ∉ ((colliderOnDestroy w selfId).colData p).collisions) ∧
    (∀ p ∈ (w.colData selfId).collisions,
      Event.mk p selfId ((w.colData p).isTrigger) Event.exit
        ∈ (colliderOnDestroy w selfId).events) := by
  have hselfmem : selfId ∈ w.registry := by
    rw [← List.count_pos_iff]
    omega
  have hregistry : (colliderOnDestroy w selfId).registry
      = w.registry.erase selfId := by
    show jsSpliceRemove
        (((w.colData selfId).collisions).foldl
          (fun w c => onCollisionStopOp w c selfId) w).registry selfId
      = w.registry.erase selfId
    rw [stopFold_registry, jsSpliceRemove,
      if_pos (List.elem_eq_true_of_mem hselfmem)]
  have hcolData : (colliderOnDestroy w selfId).colData
      = (((w.colData selfId).collisions).foldl
          (fun w c => onCollisionStopOp w c selfId) w).colData := rfl
  have hevents : (colliderOnDestroy w selfId).events
      = w.events ++ ((w.colData selfId).collisions).map
          (fun p => ⟨p, selfId, (w.colData p).isTrigger, Event.exit⟩) := by
    show (((w.colData selfId).collisions).foldl
        (fun w c => onCollisionStopOp w c selfId) w).events = _
    exact stopFold_events selfId _ w
  refine ⟨?_, ?_, ?_, ?_⟩
  · intro v i hi
    show (v.registry ++ [i]).count i = 1
    rw [List.count_append, List.count_eq_zero.mpr hi]
    simp
  · rw [hregistry, List.count_erase_self, hreg]
  · intro p hp
    have hpreg : p ∈ w.registry := by
      rw [hregistry] at hp
      exact List.mem_of_mem_erase hp
    rw [hcolData]
    by_cases hpp : p ∈ (w.colData selfId).collisions
    · rw [stopFold_colData_mem selfId _ w p hnd hpp]
      have hmem : selfId ∈ (w.colData p).collisions := hsym1 p hpp
      rw [jsSpliceRemove, if_pos (List.elem_eq_true_of_mem hmem)]
      intro hcontra
      have h1 : ((w.colData p).collisions.erase selfId).count selfId
          = (w.colData p).collisions.count selfId - 1 := List.count_erase_self _ _
      have h2 : 0 < ((w.colData p).collisions.erase selfId).count selfId :=
        List.count_pos_iff.mpr hcontra
      have h3 : 0 < (w.colData p).collisions.count selfId :=
        List.count_pos_iff.mpr hmem
      have h4 := hcnt p hpreg
      omega
    · rw [stopFold_colData_not_mem selfId _ w p hpp]
      intro hcontra
      exact hpp (hsym2 p hpreg hcontra)
  · intro p hpp
    rw [hevents]
    exact List.mem_append_right _ (List.mem_map.mpr ⟨p, hpp, rfl⟩)

/-- C5 witness for the amended theorem: the symmetric two-collider world,
destroying collider 1. -/
theorem C5_amended_witness :
    (∀ v : World, ∀ i, i ∉ v.registry → (colliderRegister v i).registry.count i = 1) ∧
    (colliderOnDestroy wC5sym 1).registry.count 1 = 0 ∧
    (∀ p ∈ (colliderOnDestroy wC5sym 1).registry,
      1 ∉ ((colliderOnDestroy wC5sym 1).colData p).collisions) ∧
    (∀ p ∈ (wC5sym.colData 1).collisions,
      Event.mk p 1 ((wC5sym.colData p).isTrigger) Event.exit
        ∈ (colliderOnDestroy wC5sym 1).events) :=
  C5_amended wC5sym 1 (by decide) (by decide) (by decide) (by decide) (by decide)

/-- C7: `Vector2.moveTowards` adds the UNIT direction vector
(`delta.divide(distance)` with no scaling by maxDelta).  From (0,0) toward
(3,4) with maxDelta 1/2 it returns (3/5, 4/5), moving a distance of 1 > 1/2
— beyond the maximum step.  And at distance exactly equal to maxDelta (= 5)
it does not return the target (the guard is strict `maxDelta > distance`).
The scalar form clamps correctly by contrast: moveTowardsInt 0 10 (1/2)
moves exactly 1/2. -/
theorem C7_moveTowards_unit_step_not_clamped :
    (Vec2R.moveTowards ⟨0, 0⟩ ⟨3, 4⟩ (1/2) false).x = 3/5 ∧
    (Vec2R.moveTowards ⟨0, 0⟩ ⟨3, 4⟩ (1/2) false).y = 4/5 ∧
    Vec2R.magnitude
        (Vec2R.substract (Vec2R.moveTowards ⟨0, 0⟩ ⟨3, 4⟩ (1/2) false) ⟨0, 0⟩) = 1 ∧
    ((1 : ℝ) > 1/2) ∧
    (Vec2R.moveTowards ⟨0, 0⟩ ⟨3, 4⟩ 5 false).x ≠ 3 ∧
    moveTowardsInt 0 10 (1/2) = 1/2 := by
  have hsqrt25 : Real.sqrt 25 = 5 := by
    rw [show (25:ℝ) = 5^2 by norm_num]
    exact Real.sqrt_sq (by norm_num)
  have hmag : Vec2R.magnitude (Vec2R.substract ⟨3, 4⟩ ⟨0, 0⟩) = 5 := by
    unfold Vec2R.magnitude Vec2R.sqrMagnitude Vec2R.substract
    norm_num
    exact hsqrt25
  have hres : Vec2R.moveTowards ⟨0, 0⟩ ⟨3, 4⟩ (1/2) false = ⟨3/5, 4/5⟩ := by
    unfold Vec2R.moveTowards
    dsimp only
    rw [hmag, if_neg (by norm_num)]
    unfold Vec2R.add Vec2R.divide Vec2R.substract
    simp only [Vec2R.mk.injEq]
    norm_num
  refine ⟨by rw [hres], by rw [hres], ?_, by norm_num, ?_, ?_⟩
  · rw [hres]
    unfold Vec2R.magnitude Vec2R.sqrMagnitude Vec2R.substract
    rw [show ((3/5 - 0) * (3/5 - 0) + (4/5 - 0) * (4/5 - 0) : ℝ) = 1 by norm_num]
    exact Real.sqrt_one
  · unfold Vec2R.moveTowards
    dsimp only
    rw [hmag, if_neg (by norm_num)]
    unfold Vec2R.add Vec2R.divide Vec2R.substract
    norm_num
  · unfold moveTowardsInt
    norm_num

/-! # The position setter (claim C2) -/

/-- An axis step whose collision pass reports blocking rolls the position
back to `lastPosition`, keeping the pass's other side effects. -/
theorem collisionCheck_single_blocked (w : World) (objId c : Nat) (dx dy : Q)
    (hcol : w.objColliders objId = [c])
    (hmode : (w.colData c).collisionCheckMethod = COLLISION_CHECK_METHOD.ON_MOVED)
    (hb : (updateCollision (movedWorld w objId dx dy) c).2 = true) :
    collisionCheck w objId dx dy
      = { (updateCollision (movedWorld w objId dx dy) c).1 with
          objPos := (setAt (updateCollision (movedWorld w objId dx dy) c).1.objPos objId
            (w.objPos objId)) } := by
  unfold collisionCheck
  rw [hcol]
  unfold collisionCheckLoop
  dsimp only
  rw [if_pos (show ((movedWorld w objId dx dy).colData c).collisionCheckMethod
      = COLLISION_CHECK_METHOD.ON_MOVED from hmode), if_pos hb]

/-- An axis step whose collision pass reports no blocking keeps the moved
position. -/
theorem collisionCheck_single_clear (w : World) (objId c : Nat) (dx dy : Q)
    (hcol : w.objColliders objId = [c])
    (hmode : (w.colData c).collisionCheckMethod = COLLISION_CHECK_METHOD.ON_MOVED)
    (hb : (updateCollision (movedWorld w objId dx dy) c).2 = false) :
    collisionCheck w objId dx dy = (updateCollision (movedWorld w objId dx dy) c).1 := by
  unfold collisionCheck
  rw [hcol]
  unfold collisionCheckLoop
  dsimp only
  rw [if_pos (show ((movedWorld w objId dx dy).colData c).collisionCheckMethod
      = COLLISION_CHECK_METHOD.ON_MOVED from hmode),
    if_neg (by rw [hb]; exact Bool.false_ne_true)]
  rfl

/-- With `collisionIterations = 1`, a setter call that is neither a no-op
nor collider-free is an X-axis `collisionCheck` followed by a Y-axis one. -/
theorem setPosition_two_steps (w : World) (objId c : Nat) (value : Vector2)
    (hne : (w.objPos objId).equals value = false)
    (hcol : w.objColliders objId = [c]) :
    setPosition w objId value
      = collisionCheck (collisionCheck w objId (deltaStepOf w objId value).x ⟨0, 1⟩)
          objId ⟨0, 1⟩ (deltaStepOf w objId value).y := by
  unfold setPosition deltaStepOf
  dsimp only
  rw [hne, if_neg Bool.false_ne_true, hcol,
    if_neg (by rw [List.isEmpty_cons]; exact Bool.false_ne_true)]
  rw [show List.range collisionIterations = [0] from rfl, List.foldl_cons, List.foldl_nil]

/-- Evaluating a pointwise table update at the written cell. -/
theorem setAt_eval {α : Type} (f : Nat → α) (i : Nat) (v : α) : setAt f i v i = v := by
  simp [setAt]

/-- The X step of a blocked setter call produces `xBlockedWorld`. -/
theorem collisionCheck_x_blocked (w : World) (objId c : Nat) (value : Vector2)
    (hcol : w.objColliders objId = [c])
    (hmode : (w.colData c).collisionCheckMethod = COLLISION_CHECK_METHOD.ON_MOVED)
    (hX : (updateCollision (xMovedWorld w objId value) c).2 = true) :
    collisionCheck w objId (deltaStepOf w objId value).x ⟨0, 1⟩
      = xBlockedWorld w objId c value := by
  unfold xBlockedWorld xMovedWorld
  unfold xMovedWorld at hX
  exact collisionCheck_single_blocked w objId c _ _ hcol hmode hX

/-- The Y step after a blocked X step, itself unblocked, keeps the moved
world. -/
theorem collisionCheck_y_after_block (w : World) (objId c : Nat) (value : Vector2)
    (hcol : w.objColliders objId = [c])
    (hY : (updateCollision (yMovedWorld w objId c value) c).2 = false)
    (hmode : (w.colData c).collisionCheckMethod = COLLISION_CHECK_METHOD.ON_MOVED) :
    collisionCheck (xBlockedWorld w objId c value) objId ⟨0, 1⟩ (deltaStepOf w objId value).y
      = (updateCollision (yMovedWorld w objId c value) c).1 := by
  have hcolX : (xBlockedWorld w objId c value).objColliders objId = [c] := by
    show (updateCollision (xMovedWorld w objId value) c).1.objColliders objId = [c]
    rw [updateCollision_objColliders]
    exact hcol
  have hmodeX : ((xBlockedWorld w objId c value).colData c).collisionCheckMethod
      = COLLISION_CHECK_METHOD.ON_MOVED := by
    show ((updateCollision (xMovedWorld w objId value) c).1.colData c).collisionCheckMethod = _
    rw [updateCollision_method]
    exact hmode
  exact collisionCheck_single_clear (xBlockedWorld w objId c value) objId c _ _ hcolX hmodeX hY

/-- C2: with one attached non-trigger ON_MOVED collider, a setter call whose
tentative X step is blocked but whose Y step is not ends with the X
coordinate unchanged and the Y coordinate at the requested target: each axis
is resolved independently and only the blocked axis is rolled back. -/
theorem C2_blocked_axis_rolls_back_other_applies (w : World) (objId c : Nat) (value : Vector2)
    (hcol : w.objColliders objId = [c])
    (hmode : (w.colData c).collisionCheckMethod = COLLISION_CHECK_METHOD.ON_MOVED)
    (hne : (w.objPos objId).equals value = false)
    (hX : (updateCollision (xMovedWorld w objId value) c).2 = true)
    (hY : (updateCollision (yMovedWorld w objId c value) c).2 = false)
    (hpx : (w.objPos objId).x.den ≠ 0) (hpy : (w.objPos objId).y.den ≠ 0)
    (hvy : value.y.den ≠ 0) :
    ((setPosition w objId value).objPos objId).x.toRat = (w.objPos objId).x.toRat ∧
    ((setPosition w objId value).objPos objId).y.toRat = value.y.toRat := by
  have h1 : (yMovedWorld w objId c value).objPos objId
      = ((xBlockedWorld w objId c value).objPos objId).add
          ⟨⟨0, 1⟩, (deltaStepOf w objId value).y⟩ := setAt_eval _ _ _
  have h2 : (xBlockedWorld w objId c value).objPos objId = w.objPos objId := setAt_eval _ _ _
  have hfinal : (setPosition w objId value).objPos objId
      = (w.objPos objId).add ⟨⟨0, 1⟩, (deltaStepOf w objId value).y⟩ := by
    rw [setPosition_two_steps w objId c value hne hcol,
      collisionCheck_x_blocked w objId c value hcol hmode hX,
      collisionCheck_y_after_block w objId c value hcol hY hmode,
      updateCollision_objPos, h1, h2]
  rw [hfinal]
  have hdsy : (deltaStepOf w objId value).y
      = (value.y.add (w.objPos objId).y.neg).div (Q.ofInt (collisionIterations : ℤ)) := rfl
  have hden1 : (value.y.add (w.objPos objId).y.neg).den ≠ 0 := by
    show value.y.den * (w.objPos objId).y.den ≠ 0
    exact mul_ne_zero hvy hpy
  have hdeny : ((deltaStepOf w objId value).y).den ≠ 0 := by
    rw [hdsy]
    show (value.y.add (w.objPos objId).y.neg).den * (1 : ℤ) ≠ 0
    simpa using hden1
  constructor
  · show ((w.objPos objId).x.add ⟨0, 1⟩).toRat = _
    rw [Q.toRat_add _ _ hpx (by norm_num)]
    norm_num [Q.toRat]
  · show ((w.objPos objId).y.add (deltaStepOf w objId value).y).toRat = _
    rw [Q.toRat_add _ _ hpy hdeny, hdsy,
      Q.toRat_div _ _ hden1 (by norm_num [Q.ofInt]) (by decide),
      Q.toRat_add _ _ hvy (show (w.objPos objId).y.neg.den ≠ 0 from hpy),
      Q.toRat_neg, Q.toRat_ofInt,
      show ((collisionIterations : ℕ) : ℤ) = 1 from rfl]
    push_cast
    ring

/-- C2 witness: Scenario 2.  The player entity 0 at the origin, target
(10, 3): the X step collides with the enemy collider 5 units to the right
and rolls back; the Y step is unblocked — the final position is (0, 3). -/
theorem C2_witness :
    ((setPosition wC2 0 (qv 10 3)).objPos 0).x.toRat = ((wC2.objPos 0).x).toRat ∧
    ((setPosition wC2 0 (qv 10 3)).objPos 0).y.toRat = ((qv 10 3).y).toRat :=
  C2_blocked_axis_rolls_back_other_applies wC2 0 0 (qv 10 3) (by decide) (by decide)
    (by decide) (by decide) (by decide) (by decide) (by decide) (by decide)

/-- C9 witness: the concrete two-animator world. -/
theorem C9_witness :
    (addComponent wAnim 0 6).2
        = some "An animator is already attached to this gameObject!" ∧
    (addComponent wAnim 0 6).1 = wAnim ∧
    ((addComponent wAnim 0 6).1.ents 0).animator = some 5 ∧
    6 ∉ ((addComponent wAnim 0 6).1.ents 0).components ∧
    ((addComponent wAnim 0 6).1.comps 6).gameObjectRef ≠ some 0 :=
  C9_second_animator_rejected wAnim 0 6 5 (by decide) (by decide) (by decide) (by decide)

end Jello
